import Mathlib

/-!
# node-osmium reader binding and the write-pbf benchmark

A shallow embedding of `src/src/reader_wrap.cpp` (the `Reader` class exposed to
JavaScript: `ReaderWrap::New`, `ReaderWrap::header`, `ReaderWrap::apply`) and of
`src/benchmarks/osmium_benchmark_write_pbf.cpp` (`main`).

Conventions of the embedding

* A JavaScript value is a term of `Value`.  The V8 predicates used by the
  binding (`IsString`, `IsObject`, `IsBoolean`, `BooleanValue`, `HasInstance`,
  `Get`) are functions on `Value`.  Property lookup is the lookup of an own data
  property; accessors and prototype chains are outside the model.
* A call from JavaScript ends in a `Completion`: a returned value, a JavaScript
  exception raised with `ThrowException`, or a C++ exception that leaves the
  function because nothing catches it.
* The osmium library is not part of the embedded files.  What the binding uses
  of it is a parameter: the flag constants (`EntityFlags`), the outcome of
  opening a file (`Library`), the decode results of a reader (`Reader.items`),
  the handler (`JSHandler`) and the node location handler (`LocationHandler`).
* Calls that leave the binding are recorded in call order, so that statements
  about "which calls were made, in which order" are statements about lists.
  A call is recorded when it is made, whether it returns or raises.
* A `char*` read from a string ends at the first NUL character (`c_str`), and
  `Number::New` lets only the canonical NaN in (`Number_New`).
* In the benchmark every library call may raise (`benchmark.Library.raises`);
  `main` catches nothing, so a call that raises ends the run.
-/

namespace node_osmium

/-! ## JavaScript values -/

/-- A double, carried by its IEEE-754 bit pattern; a JavaScript number is a
double.  The binding performs no arithmetic on doubles; it only passes them on
and tests them for zero and NaN. -/
structure JSNumber where
  bits : Nat
  deriving DecidableEq, Repr

/-- Whether a double is a NaN: exponent all ones and a mantissa that is not
zero. -/
def JSNumber.isNaN (n : JSNumber) : Bool :=
  let magnitude := n.bits % 2 ^ 64 % 2 ^ 63
  magnitude / 2 ^ 52 == 2047 && magnitude % 2 ^ 52 != 0

/-- The canonical quiet NaN. -/
def JSNumber.canonicalNaN : JSNumber := ⟨0x7FF8000000000000⟩

/-- The text that a `const char*` into the buffer of a string stands for: the
string up to its first NUL character.  This is what `x.c_str()` hands to
`String::New(const char*)` and what `*String::Utf8Value(v)` hands to a
`std::string` constructor. -/
def c_str (s : String) : String :=
  String.mk (s.data.takeWhile (fun c => c != Char.ofNat 0))

/-- Modelled from the spec: `osmium::io::File` is declared by the library, not
by the embedded files.  The spec describes a file handle as "a path plus a
declared format", with "no internal state beyond path and format tag". -/
structure File where
  path : String
  format : String
  deriving DecidableEq, Repr

/-- The C++ object kept in the internal field of a JavaScript object, which is
also what `FunctionTemplate::HasInstance` tests for. -/
inductive Native where
  | plain
  | file (f : File)
  | handler
  | reader
  deriving DecidableEq, Repr

/-- A JavaScript value. -/
inductive Value where
  | undefined
  | null
  | boolean (b : Bool)
  | number (n : JSNumber)
  | string (s : String)
  | array (elems : List Value)
  | object (native : Native) (props : List (String × Value))

namespace Value

/-- The test `v->IsString()`: a primitive string. -/
def IsString : Value → Bool
  | string _ => true
  | _ => false

/-- The test `v->IsObject()`: objects and arrays; `null` is not an object. -/
def IsObject : Value → Bool
  | array _ => true
  | object _ _ => true
  | _ => false

/-- The test `v->IsBoolean()`: a primitive boolean. -/
def IsBoolean : Value → Bool
  | boolean _ => true
  | _ => false

/-- The test `v->IsNull()`. -/
def IsNull : Value → Bool
  | null => true
  | _ => false

/-- The test `v->IsUndefined()`. -/
def IsUndefined : Value → Bool
  | undefined => true
  | _ => false

/-- ECMAScript `ToBoolean` on a number: false for `+0`, `-0` and NaN. -/
def numberTruthy (n : JSNumber) : Bool :=
  let b := n.bits % 2 ^ 64
  let magnitude := b % 2 ^ 63
  let isZero := magnitude == 0
  !(isZero || n.isNaN)

/-- The conversion `v->BooleanValue()`: ECMAScript `ToBoolean`. -/
def BooleanValue : Value → Bool
  | undefined => false
  | null => false
  | boolean b => b
  | number n => numberTruthy n
  | string s => !s.isEmpty
  | array _ => true
  | object _ _ => true

/-- The lookup `obj->Get(String::New(key))`: the own data property, `undefined` when there
is none. -/
def Get (v : Value) (key : String) : Value :=
  match v with
  | object _ props => (props.lookup key).getD undefined
  | _ => undefined

/-- The update `obj->Set(String::New(key), x)`: replaces the property when it exists,
appends it otherwise. -/
def Set (v : Value) (key : String) (x : Value) : Value :=
  match v with
  | object n props =>
      if (props.lookup key).isSome then
        object n (props.map fun p => if p.1 == key then (p.1, x) else p)
      else
        object n (props ++ [(key, x)])
  | other => other

/-- The update `arr->Set(i, x)` on an array, for an index inside the array. -/
def SetIndex (v : Value) (i : Nat) (x : Value) : Value :=
  match v with
  | array elems => array (elems.set i x)
  | other => other

/-- The buffer of `String::Utf8Value(v)` for a primitive string: the whole
string.  Reading it through `operator*`, a `char*`, ends at the first NUL
(`c_str`). -/
def Utf8Value : Value → String
  | string s => s
  | _ => ""

end Value

/-- The value `Number::New(d)`: the JavaScript number for a double.  V8 lets
only the canonical NaN in, so every NaN becomes that one. -/
def Number_New (d : JSNumber) : Value :=
  if d.isNaN then Value.number JSNumber.canonicalNaN else Value.number d

/-- The value `String::New(p)` for a `const char*` into the buffer of `s`: the
text up to the first NUL.  The bytes of a `std::string` are taken to be the
UTF-8 of the text that models them. -/
def String_New (s : String) : Value :=
  Value.string (c_str s)

/-- The argument `args[i]`: V8 yields `undefined` for an index past `args.Length()`. -/
def arg (args : List Value) (i : Nat) : Value :=
  args.getD i Value.undefined

/-- The test `FileWrap::constructor->HasInstance(obj)`. -/
def FileWrap_HasInstance : Value → Bool
  | Value.object (Native.file _) _ => true
  | _ => false

/-- The value `*(node::ObjectWrap::Unwrap<FileWrap>(obj)->get())`: the file a `File`
object wraps.  It is only called on instances of the `File` wrapper. -/
def FileWrap_get : Value → File
  | Value.object (Native.file f) _ => f
  | _ => ⟨"", ""⟩

/-- The test `JSHandler::constructor->HasInstance(obj)`. -/
def JSHandler_HasInstance : Value → Bool
  | Value.object Native.handler _ => true
  | _ => false

/-! ## Completions -/

/-- The two V8 exception constructors the binding uses. -/
inductive ErrorClass where
  | Error
  | TypeError
  deriving DecidableEq, Repr

/-- A C++ exception: whether its type derives from `std::exception`, and the
text of the C string `what()` points to. -/
structure CppException where
  is_std_exception : Bool
  what : String
  deriving DecidableEq, Repr

/-- How a call from JavaScript into the binding ends. -/
inductive Completion where
  | returned (v : Value)
  | thrown (cls : ErrorClass) (msg : String)
  | uncaught (ex : CppException)

/-- The class of the JavaScript exception a completion raises, if any. -/
def Completion.errorClass : Completion → Option ErrorClass
  | Completion.thrown cls _ => some cls
  | _ => none

/-! ## The library objects the binding touches -/

/-- The constants of `osmium::osm_entity::flags` that `ReaderWrap::New` names.
The enum is declared by the library; its values are a parameter here.  `|=` on
the enum is the bitwise or of the underlying integers. -/
structure EntityFlags where
  nothing : Nat
  node : Nat
  way : Nat
  relation : Nat
  all : Nat
  deriving DecidableEq, Repr

/-- The kind of an item in a buffer. -/
inductive item_type where
  | node
  | way
  | relation
  | changeset
  deriving DecidableEq, Repr

/-- An entity of the stream: the item an `input_iterator` points at. -/
structure Entity where
  type : item_type
  id : Int
  deriving DecidableEq, Repr

/-- The result of `lon()` and `lat()` of a corner of the bounding box. -/
structure Location where
  lon : JSNumber
  lat : JSNumber
  deriving DecidableEq, Repr

/-- The value of `osmium::Box`: its two corners. -/
structure Box where
  bottom_left : Location
  top_right : Location
  deriving DecidableEq, Repr

/-- The value of `osmium::io::Header` as far as `ReaderWrap::header` reads it:
the keyed lookup `get` and the bounding box. -/
structure Header where
  get : String → String
  box : Box

/-- The state of an `osmium::io::Reader`: its header and what its stream still
holds.  An item of the stream is either a decoded entity or the exception that
decoding raises at that position. -/
structure Reader where
  header : Header
  items : List (Except CppException Entity)

/-- The part of the library that opens a file: the outcome of
`new ReaderWrap(file, read_which_entities)`. -/
structure Library where
  open_reader : File → Nat → Except CppException Reader

/-- One attempt to open a file: the arguments given to the library. -/
structure OpenCall where
  file : File
  read_which_entities : Nat
  deriving DecidableEq, Repr

/-! ## `ReaderWrap::New` -/

/-- The result of a call to the constructor: how it completes, the reader that
was created and wrapped into `this` (if any), and the open attempts made. -/
structure NewResult where
  completion : Completion
  wrapped : Option Reader
  opens : List OpenCall

/-- The condition `option->IsBoolean() && option->BooleanValue()` (lines 52, 57, 62). -/
def wants (options : Value) (key : String) : Bool :=
  (options.Get key).IsBoolean && (options.Get key).BooleanValue

/-- Lines 43-66 of `ReaderWrap::New`: the value of `read_which_entities`, or
the message of the `TypeError` raised for a second argument that is no
object. -/
def read_which_entities (fc : EntityFlags) (args : List Value) : Except String Nat :=
  let r0 := fc.all
  if args.length == 2 then
    if !(arg args 1).IsObject then
      Except.error "Second argument to Reader constructor must be object"
    else
      let options := arg args 1
      let r1 := fc.nothing
      let r2 := if wants options "node" then r1 ||| fc.node else r1
      let r3 := if wants options "way" then r2 ||| fc.way else r2
      let r4 := if wants options "relation" then r3 ||| fc.relation else r3
      Except.ok r4
  else
    Except.ok r0

/-- Lines 69-71 and 75-77 inside the `try` of lines 42-83: create the reader,
wrap it and return `this`; a `std::exception` is caught and raised again as a
`TypeError` carrying `ex.what()`, any other exception leaves the function. -/
def construct (lib : Library) (this : Value) (file : File) (flags : Nat) : NewResult :=
  match lib.open_reader file flags with
  | Except.ok q => ⟨Completion.returned this, some q, [⟨file, flags⟩]⟩
  | Except.error ex =>
      if ex.is_std_exception then
        ⟨Completion.thrown ErrorClass.TypeError ex.what, none, [⟨file, flags⟩]⟩
      else
        ⟨Completion.uncaught ex, none, [⟨file, flags⟩]⟩

/-- The file of the `osmium::io::File file(path)` declaration of line 68, for
the `char*` that `*String::Utf8Value(args[0])` yields: the path is the text up
to the first NUL, the format is left to the library. -/
def File.ofPath (utf8 : String) : File := ⟨c_str utf8, ""⟩

/-- The function `ReaderWrap::New` (lines 34-85). -/
def New (lib : Library) (fc : EntityFlags) (isConstructCall : Bool) (this : Value)
    (args : List Value) : NewResult :=
  if !isConstructCall then
    ⟨Completion.thrown ErrorClass.Error
      "Cannot call constructor as function, you need to use 'new' keyword", none, []⟩
  else if args.length < 1 || args.length > 2 then
    ⟨Completion.thrown ErrorClass.TypeError
      "please provide a File object or string for the first argument and optional options Object when creating a Reader",
      none, []⟩
  else
    match read_which_entities fc args with
    | Except.error msg => ⟨Completion.thrown ErrorClass.TypeError msg, none, []⟩
    | Except.ok flags =>
        if (arg args 0).IsString then
          construct lib this (File.ofPath (arg args 0).Utf8Value) flags
        else if (arg args 0).IsObject && FileWrap_HasInstance (arg args 0) then
          construct lib this (FileWrap_get (arg args 0)) flags
        else
          ⟨Completion.thrown ErrorClass.TypeError
            "please provide a File object or string for the first argument when creating a Reader",
            none, []⟩

/-! ## `ReaderWrap::header` -/

/-- A call that a method of the reader makes while it iterates:
`osmium::apply_item(*it, location_handler)`, `handler->dispatch_object(it)` and
`handler->done()`.  A call is recorded when it is made, whether it returns or
raises.  The entity of a call is the item the iterator points at. -/
inductive Call where
  | resolve (e : Entity)
  | dispatch (e : Entity)
  | done
  deriving DecidableEq, Repr

/-- The result of a call to `header`: how it completes, the reader afterwards,
and the calls it made. -/
structure HeaderResult where
  completion : Completion
  reader : Reader
  calls : List Call

/-- The function `ReaderWrap::header` (lines 87-101).  The arguments are not read. -/
def header (reader : Reader) (_args : List Value) : HeaderResult :=
  let obj := Value.object Native.plain []
  let hdr := reader.header
  let obj := obj.Set "generator" (String_New (hdr.get "generator"))
  let bounds := hdr.box
  let arr := Value.array (List.replicate 4 Value.undefined)
  let arr := arr.SetIndex 0 (Number_New bounds.bottom_left.lon)
  let arr := arr.SetIndex 1 (Number_New bounds.bottom_left.lat)
  let arr := arr.SetIndex 2 (Number_New bounds.top_right.lon)
  let arr := arr.SetIndex 3 (Number_New bounds.top_right.lat)
  let obj := obj.Set "bounds" arr
  ⟨Completion.returned obj, reader, []⟩

/-! ## `ReaderWrap::apply` -/

/-- Whether a call is a call on the caller's handler. -/
def Call.onHandler : Call → Bool
  | Call.resolve _ => false
  | Call.dispatch _ => true
  | Call.done => true

/-- The handler that `Unwrap<JSHandler>(obj)` yields, as a state machine: each
callback either returns, with a new state of the handler, or raises. -/
structure JSHandler (σ : Type) where
  dispatch_object : σ → Entity → Except CppException σ
  done : σ → Except CppException σ

/-- The internal `location_handler_type`, as a state machine over the state of
its two indexes; `init` is the state right after lines 133-135. -/
structure LocationHandler (ι : Type) where
  init : ι
  apply_item : ι → Entity → Except CppException ι

/-- The result of one of the two loops of `apply`, together with the call of
`done` that follows it: the exception that ended it (if any), the calls made,
what is left of the stream and the state of the handler. -/
structure LoopResult (σ : Type) where
  raised : Option CppException
  calls : List Call
  rest : List (Except CppException Entity)
  hstate : σ

/-- Lines 147-154: the loop of plain mode, then `handler->done()`.  The
iterator decodes the item it moves to (at its construction and at `++it`), so
a decode error at a position is raised before anything is done with the items
behind it. -/
def plain_loop {σ : Type} (h : JSHandler σ) :
    List (Except CppException Entity) → σ → LoopResult σ
  | [], s =>
      match h.done s with
      | Except.ok s1 => ⟨none, [Call.done], [], s1⟩
      | Except.error ex => ⟨some ex, [Call.done], [], s⟩
  | Except.error ex :: rest, s => ⟨some ex, [], rest, s⟩
  | Except.ok e :: rest, s =>
      match h.dispatch_object s e with
      | Except.error ex => ⟨some ex, [Call.dispatch e], rest, s⟩
      | Except.ok s1 =>
          let r := plain_loop h rest s1
          ⟨r.raised, Call.dispatch e :: r.calls, r.rest, r.hstate⟩

/-- The result of the loop of location-resolving mode: that of a loop, and
the state of the location handler when the loop ended. -/
structure LocationLoopResult (σ ι : Type) extends LoopResult σ where
  lstate : ι

/-- Lines 137-145: the loop of location-resolving mode, then
`handler->done()`. -/
def location_loop {σ ι : Type} (loc : LocationHandler ι) (h : JSHandler σ) :
    List (Except CppException Entity) → ι → σ → LocationLoopResult σ ι
  | [], l, s =>
      match h.done s with
      | Except.ok s1 => ⟨⟨none, [Call.done], [], s1⟩, l⟩
      | Except.error ex => ⟨⟨some ex, [Call.done], [], s⟩, l⟩
  | Except.error ex :: rest, l, s => ⟨⟨some ex, [], rest, s⟩, l⟩
  | Except.ok e :: rest, l, s =>
      match loc.apply_item l e with
      | Except.error ex => ⟨⟨some ex, [Call.resolve e], rest, s⟩, l⟩
      | Except.ok l1 =>
          match h.dispatch_object s e with
          | Except.error ex => ⟨⟨some ex, [Call.resolve e, Call.dispatch e], rest, s⟩, l1⟩
          | Except.ok s1 =>
              let r := location_loop loc h rest l1 s1
              ⟨⟨r.raised, Call.resolve e :: Call.dispatch e :: r.calls, r.rest, r.hstate⟩,
                r.lstate⟩

/-- Lines 106-127 of `apply`: the checks on the arguments.  The result is the
value of `with_location_handler`, or the message of the `TypeError` raised. -/
def apply_args (args : List Value) : Except String Bool :=
  if args.length != 1 && args.length != 2 then
    Except.error "please provide a single handler object"
  else if !(arg args 0).IsObject then
    Except.error "please provide a single handler object"
  else
    let obj := arg args 0
    if obj.IsNull || obj.IsUndefined || !JSHandler_HasInstance obj then
      Except.error "please provide a valid handler object"
    else
      let with_location_handler := false
      if args.length == 2 then
        if !(arg args 1).IsObject then
          Except.error "second argument must be 'option' object"
        else
          let wlh := (arg args 1).Get "with_location_handler"
          if wlh.BooleanValue then Except.ok true else Except.ok with_location_handler
      else
        Except.ok with_location_handler

/-- The result of a call to `apply`: how it completes, the calls made in call
order, the reader afterwards, the state of the handler, and the state the
internal location handler had when the pass ended (`none` when none was
built). -/
structure ApplyResult (σ ι : Type) where
  completion : Completion
  calls : List Call
  reader : Reader
  hstate : σ
  lstate : Option ι

/-- Lines 145-157 and 154-157: what `apply` ends with after a loop. -/
def finish {σ ι : Type} (reader : Reader) (r : LoopResult σ) (lstate : Option ι) :
    ApplyResult σ ι :=
  match r.raised with
  | some ex =>
      ⟨Completion.uncaught ex, r.calls, { reader with items := r.rest }, r.hstate, lstate⟩
  | none =>
      ⟨Completion.returned Value.undefined, r.calls, { reader with items := r.rest },
        r.hstate, lstate⟩

/-- The function `ReaderWrap::apply` (lines 103-158).  There is no `try` in it: a C++
exception raised while iterating leaves the function as it is. -/
def apply {σ ι : Type} (loc : LocationHandler ι) (h : JSHandler σ) (reader : Reader)
    (args : List Value) (s : σ) : ApplyResult σ ι :=
  match apply_args args with
  | Except.error msg => ⟨Completion.thrown ErrorClass.TypeError msg, [], reader, s, none⟩
  | Except.ok with_location_handler =>
      if with_location_handler then
        let r := location_loop loc h reader.items loc.init s
        finish reader r.toLoopResult (some r.lstate)
      else
        finish reader (plain_loop h reader.items s) none

end node_osmium

/-! ## The benchmark `osmium_benchmark_write_pbf` -/

namespace benchmark

/-- An `osmium::memory::Buffer`: `valid` is the result of its conversion to
`bool`, `id` tells buffers apart. -/
structure Buffer where
  valid : Bool
  id : Nat
  deriving DecidableEq, Repr

/-- What `main` does to the outside, in the order in which it does it: the
usage message, and the calls into the library.  A call is recorded when it is
made, whether it returns or raises. -/
inductive Event where
  | usage (program : String)
  | open_reader (input_filename : String)
  | read
  | close_reader
  | create_file (output_filename : String) (format : String)
  | create_header
  | create_writer (output_filename : String) (overwrite_allowed : Bool)
  | write (buffer : Buffer)
  | close_writer
  deriving DecidableEq, Repr

/-- What the benchmark gets from the library.  `raises log call` tells whether
the call `call`, made after the calls `log`, raises an exception; `read file n`
is the buffer that read number `n` (counted from 0) of a reader on `file`
returns when it returns. -/
structure Library where
  raises : List Event → Event → Bool
  read : String → Nat → Buffer

end benchmark

/-! ## Sample inputs

Concrete values at which the theorems below are instantiated. -/

namespace node_osmium

/-- Sample flag constants: one bit for each kind, `all` with every bit set. -/
def sampleFlags : EntityFlags := ⟨0, 1, 2, 4, 15⟩

/-- A sample header: generator "test", box from (1, 2) to (3, 4) (the numbers
stand for bit patterns). -/
def sampleHeader : Header :=
  ⟨fun key => if key == "generator" then "test" else "", ⟨⟨⟨1⟩, ⟨2⟩⟩, ⟨⟨3⟩, ⟨4⟩⟩⟩⟩

/-- A sample node. -/
def node1 : Entity := ⟨item_type.node, 1⟩

/-- A sample way. -/
def way7 : Entity := ⟨item_type.way, 7⟩

/-- A sample reader whose stream decodes to two entities. -/
def sampleReader : Reader := ⟨sampleHeader, [Except.ok node1, Except.ok way7]⟩

/-- A library that opens every file. -/
def sampleLibrary : Library := ⟨fun _ _ => Except.ok sampleReader⟩

/-- The exception of `failingLibrary`. -/
def openFailed : CppException := ⟨true, "Open failed"⟩

/-- A library that cannot open any file. -/
def failingLibrary : Library := ⟨fun _ _ => Except.error openFailed⟩

/-- A sample `File` object. -/
def fileObject : Value := Value.object (Native.file ⟨"in.osm.pbf", "pbf"⟩) []

/-- A sample handler object. -/
def handlerObject : Value := Value.object Native.handler []

/-- A handler that counts the calls it gets and never raises. -/
def countingHandler : JSHandler Nat :=
  ⟨fun s _ => Except.ok (s + 1), fun s => Except.ok (s + 1)⟩

/-- The exception of `wayRejectingHandler`. -/
def wayRejected : CppException := ⟨true, "way rejected"⟩

/-- A handler that counts the calls it gets and raises when it is given a
way. -/
def wayRejectingHandler : JSHandler Nat :=
  ⟨fun s e => if e.type = item_type.way then Except.error wayRejected else Except.ok (s + 1),
    fun s => Except.ok (s + 1)⟩

/-- A location handler that keeps the identifiers of the nodes it has seen and
never raises. -/
def sampleLocationHandler : LocationHandler (List Int) :=
  ⟨[], fun l e => Except.ok (if e.type = item_type.node then e.id :: l else l)⟩

/-- The exception of `brokenReader`. -/
def decodeFailed : CppException := ⟨true, "PBF error"⟩

/-- A sample reader whose stream decodes one node and then fails. -/
def brokenReader : Reader :=
  ⟨sampleHeader, [Except.ok node1, Except.error decodeFailed, Except.ok way7]⟩

end node_osmium

namespace benchmark

/-- Sample reads for every file: two valid buffers, then invalid ones. -/
def sampleRead : String → Nat → Buffer :=
  fun _ n => if n < 2 then ⟨true, n + 10⟩ else ⟨false, 0⟩

/-- A library in which no call raises. -/
def sampleLibrary : Library := ⟨fun _ _ => false, sampleRead⟩

end benchmark

/-! ## Theorems about `ReaderWrap::New` -/

namespace node_osmium

theorem FileWrap_HasInstance_IsObject (v : Value) (h : FileWrap_HasInstance v = true) :
    v.IsObject = true := by
  cases v <;> simp_all [FileWrap_HasInstance, Value.IsObject]

theorem FileWrap_HasInstance_not_IsString (v : Value) (h : FileWrap_HasInstance v = true) :
    v.IsString = false := by
  cases v <;> simp_all [FileWrap_HasInstance, Value.IsString]

theorem wants_iff (o : Value) (k : String) :
    wants o k = true ↔ o.Get k = Value.boolean true := by
  unfold wants
  cases o.Get k <;> simp [Value.IsBoolean, Value.BooleanValue]

theorem read_which_entities_one (fc : EntityFlags) (a0 : Value) :
    read_which_entities fc [a0] = Except.ok fc.all := by
  simp [read_which_entities]

theorem read_which_entities_two (fc : EntityFlags) (a0 o : Value) (ho : o.IsObject = true) :
    read_which_entities fc [a0, o] = Except.ok
      ((([("node", fc.node), ("way", fc.way), ("relation", fc.relation)].filter
          (fun p => wants o p.1)).map Prod.snd).foldl (fun acc bit => acc ||| bit)
        fc.nothing) := by
  simp only [read_which_entities, arg, List.length_cons, List.length_nil, List.getD_cons_succ,
    List.getD_cons_zero, ho]
  by_cases h1 : wants o "node" = true <;> by_cases h2 : wants o "way" = true <;>
    by_cases h3 : wants o "relation" = true <;> simp [List.filter, h1, h2, h3]

theorem New_opens_of_source (lib : Library) (fc : EntityFlags) (this : Value)
    (args : List Value) (flags : Nat)
    (hlen : args.length = 1 ∨ args.length = 2)
    (hsrc : (arg args 0).IsString = true ∨ FileWrap_HasInstance (arg args 0) = true)
    (hflags : read_which_entities fc args = Except.ok flags) :
    New lib fc true this args =
      construct lib this
        (if (arg args 0).IsString then File.ofPath (arg args 0).Utf8Value
          else FileWrap_get (arg args 0)) flags := by
  have h1 : (args.length < 1 || args.length > 2) = false := by
    rcases hlen with h | h <;> simp [h]
  unfold New
  simp only [Bool.not_true, Bool.false_eq_true, if_false, h1, hflags]
  rcases hsrc with h | h
  · simp [h]
  · simp [h, FileWrap_HasInstance_IsObject _ h, FileWrap_HasInstance_not_IsString _ h]

theorem construct_opens (lib : Library) (this : Value) (file : File) (flags : Nat) :
    (construct lib this file flags).opens = [⟨file, flags⟩] := by
  unfold construct
  split
  · rfl
  · split <;> rfl

/-- C1: a constructor call with one or two arguments whose first argument is
neither a string nor a `File` object, or whose second argument is given and is
no object, raises a `TypeError`; no reader is created or wrapped and the
library is not asked to open anything. -/
theorem New_rejects_bad_arguments (lib : Library) (fc : EntityFlags) (this : Value)
    (args : List Value)
    (hlen : args.length = 1 ∨ args.length = 2)
    (hbad : ((arg args 0).IsString = false ∧ FileWrap_HasInstance (arg args 0) = false) ∨
      (args.length = 2 ∧ (arg args 1).IsObject = false)) :
    (∃ msg, (New lib fc true this args).completion =
        Completion.thrown ErrorClass.TypeError msg) ∧
      (New lib fc true this args).wrapped = none ∧
      (New lib fc true this args).opens = [] := by
  have h1 : (args.length < 1 || args.length > 2) = false := by
    rcases hlen with h | h <;> simp [h]
  unfold New
  simp only [Bool.not_true, Bool.false_eq_true, if_false, h1]
  cases hr : read_which_entities fc args with
  | error msg => exact ⟨⟨msg, rfl⟩, rfl, rfl⟩
  | ok flags =>
    rcases hbad with ⟨hs, hf⟩ | ⟨h2, ho⟩
    · simp [hs, hf]
    · simp [read_which_entities, h2, ho] at hr

/-- C1 at `new Reader(42)` and at `new Reader("in.osm", 42)`. -/
theorem New_rejects_bad_arguments_witness :
    ((∃ msg, (New sampleLibrary sampleFlags true Value.undefined
          [Value.number ⟨42⟩]).completion = Completion.thrown ErrorClass.TypeError msg) ∧
      (New sampleLibrary sampleFlags true Value.undefined [Value.number ⟨42⟩]).wrapped = none ∧
      (New sampleLibrary sampleFlags true Value.undefined [Value.number ⟨42⟩]).opens = []) ∧
    ((∃ msg, (New sampleLibrary sampleFlags true Value.undefined
          [Value.string "in.osm", Value.number ⟨42⟩]).completion =
            Completion.thrown ErrorClass.TypeError msg) ∧
      (New sampleLibrary sampleFlags true Value.undefined
          [Value.string "in.osm", Value.number ⟨42⟩]).wrapped = none ∧
      (New sampleLibrary sampleFlags true Value.undefined
          [Value.string "in.osm", Value.number ⟨42⟩]).opens = []) :=
  ⟨New_rejects_bad_arguments sampleLibrary sampleFlags Value.undefined [Value.number ⟨42⟩]
      (Or.inl rfl) (Or.inl ⟨rfl, rfl⟩),
    New_rejects_bad_arguments sampleLibrary sampleFlags Value.undefined
      [Value.string "in.osm", Value.number ⟨42⟩] (Or.inr rfl) (Or.inr ⟨rfl, rfl⟩)⟩

/-- C2: a constructor call with no argument or with three or more arguments
raises a `TypeError`, whatever the arguments are; no reader is created and the
library is not asked to open anything. -/
theorem New_rejects_bad_arity (lib : Library) (fc : EntityFlags) (this : Value)
    (args : List Value) (hlen : args.length = 0 ∨ 3 ≤ args.length) :
    (New lib fc true this args).completion =
        Completion.thrown ErrorClass.TypeError
          "please provide a File object or string for the first argument and optional options Object when creating a Reader" ∧
      (New lib fc true this args).wrapped = none ∧
      (New lib fc true this args).opens = [] := by
  have h1 : (args.length < 1 || args.length > 2) = true := by
    rcases hlen with h | h
    · simp [h]
    · simp only [Bool.or_eq_true, decide_eq_true_eq]; omega
  unfold New
  simp [h1]

/-- C2 at `new Reader()` and at `new Reader("a", {}, "b")`. -/
theorem New_rejects_bad_arity_witness :
    (New sampleLibrary sampleFlags true Value.undefined []).opens = [] ∧
    (New sampleLibrary sampleFlags true Value.undefined
      [Value.string "a", Value.object Native.plain [], Value.string "b"]).completion =
        Completion.thrown ErrorClass.TypeError
          "please provide a File object or string for the first argument and optional options Object when creating a Reader" :=
  ⟨(New_rejects_bad_arity sampleLibrary sampleFlags Value.undefined [] (Or.inl rfl)).2.2,
    (New_rejects_bad_arity sampleLibrary sampleFlags Value.undefined
      [Value.string "a", Value.object Native.plain [], Value.string "b"]
      (Or.inr (by decide))).1⟩

/-- C3: for a constructor call whose first argument is a string or a `File`
object, the library is asked to open exactly one reader, and the filter passed
to it is `all` when there is no second argument; with an options object it is
the union, starting from `nothing`, of the flags of those keys among "node",
"way", "relation" whose value in the options is the boolean `true`; an empty
options object gives `nothing`. -/
theorem New_entity_filter (lib : Library) (fc : EntityFlags) (this a0 : Value)
    (hsrc : a0.IsString = true ∨ FileWrap_HasInstance a0 = true) :
    (New lib fc true this [a0]).opens.map OpenCall.read_which_entities = [fc.all] ∧
    (∀ o : Value, o.IsObject = true →
      (New lib fc true this [a0, o]).opens.map OpenCall.read_which_entities =
        [(([("node", fc.node), ("way", fc.way), ("relation", fc.relation)].filter
            (fun p => wants o p.1)).map Prod.snd).foldl (fun acc bit => acc ||| bit)
          fc.nothing]) ∧
    (∀ n : Native,
      (New lib fc true this [a0, Value.object n []]).opens.map OpenCall.read_which_entities =
        [fc.nothing]) ∧
    (∀ (o : Value) (k : String), wants o k = true ↔ o.Get k = Value.boolean true) := by
  refine ⟨?_, ?_, ?_, wants_iff⟩
  · rw [New_opens_of_source lib fc this [a0] fc.all (Or.inl rfl) hsrc
      (read_which_entities_one fc a0), construct_opens]
    rfl
  · intro o ho
    rw [New_opens_of_source lib fc this [a0, o] _ (Or.inr rfl) hsrc
      (read_which_entities_two fc a0 o ho), construct_opens]
    rfl
  · intro n
    rw [New_opens_of_source lib fc this [a0, Value.object n []] _ (Or.inr rfl) hsrc
      (read_which_entities_two fc a0 (Value.object n []) rfl), construct_opens]
    simp [wants, Value.Get, Value.IsBoolean, List.filter]

/-- C3 at `new Reader("in.osm")` and at
`new Reader("in.osm", \x7bnode: true, way: false, relation: 1\x7d)`: the first
reads everything, the second reads nodes only. -/
theorem New_entity_filter_witness :
    (New sampleLibrary sampleFlags true Value.undefined
        [Value.string "in.osm"]).opens.map OpenCall.read_which_entities = [15] ∧
    (New sampleLibrary sampleFlags true Value.undefined
        [Value.string "in.osm",
          Value.object Native.plain
            [("node", Value.boolean true), ("way", Value.boolean false),
              ("relation", Value.number ⟨1⟩)]]).opens.map
        OpenCall.read_which_entities = [1] := by
  have h := New_entity_filter sampleLibrary sampleFlags Value.undefined
    (Value.string "in.osm") (Or.inl rfl)
  refine ⟨h.1, ?_⟩
  rw [h.2.1 (Value.object Native.plain
    [("node", Value.boolean true), ("way", Value.boolean false),
      ("relation", Value.number ⟨1⟩)]) rfl]
  simp [wants, Value.Get, Value.IsBoolean, Value.BooleanValue, List.filter, List.lookup,
    sampleFlags]

/-- C6 as stated fails at `new Reader("missing.osm")` with a library that
cannot open the file: the error raised is a `TypeError` with the message of the
library, the class a call with a bad argument raises, and not an `Error`. -/
theorem New_open_failure_is_TypeError :
    (New failingLibrary sampleFlags true Value.undefined
        [Value.string "missing.osm"]).completion =
      Completion.thrown ErrorClass.TypeError "Open failed" ∧
    (New failingLibrary sampleFlags true Value.undefined
        [Value.string "missing.osm"]).completion.errorClass ≠ some ErrorClass.Error ∧
    (New failingLibrary sampleFlags true Value.undefined
        [Value.string "missing.osm"]).completion.errorClass =
      (New failingLibrary sampleFlags true Value.undefined
        [Value.number ⟨42⟩]).completion.errorClass := by
  have h : New failingLibrary sampleFlags true Value.undefined [Value.string "missing.osm"] =
      ⟨Completion.thrown ErrorClass.TypeError "Open failed", none,
        [⟨File.ofPath "missing.osm", 15⟩]⟩ := by
    rw [New_opens_of_source failingLibrary sampleFlags Value.undefined
      [Value.string "missing.osm"] 15 (Or.inl rfl) (Or.inl rfl) (read_which_entities_one _ _)]
    rfl
  have h2 : (New failingLibrary sampleFlags true Value.undefined
      [Value.number ⟨42⟩]).completion.errorClass = some ErrorClass.TypeError := by
    simp [New, read_which_entities, arg, Value.IsString, Value.IsObject,
      Completion.errorClass]
  rw [h, h2]
  simp [Completion.errorClass]

/-- C6, amended: when a constructor call has well-formed arguments and the
library raises a `std::exception` while opening the file, the call raises a
`TypeError` (the class used for bad arguments) whose message is the text of
the library's exception, and no reader is wrapped. -/
theorem New_open_failure (lib : Library) (fc : EntityFlags) (this : Value)
    (args : List Value) (flags : Nat) (ex : CppException)
    (hlen : args.length = 1 ∨ args.length = 2)
    (hsrc : (arg args 0).IsString = true ∨ FileWrap_HasInstance (arg args 0) = true)
    (hflags : read_which_entities fc args = Except.ok flags)
    (hfail : lib.open_reader
      (if (arg args 0).IsString then File.ofPath (arg args 0).Utf8Value
        else FileWrap_get (arg args 0)) flags = Except.error ex)
    (hstd : ex.is_std_exception = true) :
    (New lib fc true this args).completion =
        Completion.thrown ErrorClass.TypeError ex.what ∧
      (New lib fc true this args).wrapped = none := by
  rw [New_opens_of_source lib fc this args flags hlen hsrc hflags]
  unfold construct
  rw [hfail]
  simp [hstd]

/-- C6, amended, at `new Reader(file, \x7bnode: true\x7d)` for a `File` object and
a library that cannot open the file. -/
theorem New_open_failure_witness :
    (New failingLibrary sampleFlags true Value.undefined
        [fileObject, Value.object Native.plain [("node", Value.boolean true)]]).completion =
      Completion.thrown ErrorClass.TypeError "Open failed" ∧
    (New failingLibrary sampleFlags true Value.undefined
        [fileObject, Value.object Native.plain [("node", Value.boolean true)]]).wrapped =
      none :=
  New_open_failure failingLibrary sampleFlags Value.undefined
    [fileObject, Value.object Native.plain [("node", Value.boolean true)]] 1 openFailed
    (Or.inr rfl) (Or.inr rfl)
    (by simp [read_which_entities, arg, Value.IsObject, wants, Value.Get, Value.IsBoolean,
      Value.BooleanValue, List.lookup, sampleFlags])
    rfl rfl

end node_osmium

/-! ## Theorems about `ReaderWrap::apply` -/

namespace node_osmium

theorem foldlM_cons_ok {σ α : Type} (f : σ → α → Except CppException σ) (a : α) (l : List α)
    (s s1 : σ) (h : (a :: l).foldlM f s = Except.ok s1) :
    ∃ s0, f s a = Except.ok s0 ∧ l.foldlM f s0 = Except.ok s1 := by
  rw [List.foldlM_cons] at h
  cases hd : f s a with
  | error e => rw [hd] at h; cases h
  | ok s0 => rw [hd] at h; exact ⟨s0, rfl, h⟩

/-- The plain loop over a stream that starts with entities on which dispatch
returns: one dispatch for each, then the loop goes on with what follows. -/
theorem plain_loop_append {σ : Type} (h : JSHandler σ) (es : List Entity)
    (tail : List (Except CppException Entity)) (s s1 : σ)
    (hdisp : es.foldlM h.dispatch_object s = Except.ok s1) :
    plain_loop h (es.map Except.ok ++ tail) s =
      ⟨(plain_loop h tail s1).raised, es.map Call.dispatch ++ (plain_loop h tail s1).calls,
        (plain_loop h tail s1).rest, (plain_loop h tail s1).hstate⟩ := by
  induction es generalizing s with
  | nil =>
    simp only [List.foldlM_nil, pure, Except.pure, Except.ok.injEq] at hdisp
    subst hdisp
    simp
  | cons e es ih =>
    obtain ⟨s0, h0, hrest⟩ := foldlM_cons_ok _ _ _ _ _ hdisp
    have hih := ih s0 hrest
    simp only [List.map_cons, List.cons_append, plain_loop, h0, List.append_eq]
    rw [hih]

/-- The loop of location-resolving mode over a stream that starts with
entities on which the location handler and dispatch return. -/
theorem location_loop_append {σ ι : Type} (loc : LocationHandler ι) (h : JSHandler σ)
    (es : List Entity) (tail : List (Except CppException Entity)) (l l1 : ι) (s s1 : σ)
    (hloc : es.foldlM loc.apply_item l = Except.ok l1)
    (hdisp : es.foldlM h.dispatch_object s = Except.ok s1) :
    location_loop loc h (es.map Except.ok ++ tail) l s =
      ⟨⟨(location_loop loc h tail l1 s1).raised,
        es.flatMap (fun e => [Call.resolve e, Call.dispatch e]) ++
          (location_loop loc h tail l1 s1).calls,
        (location_loop loc h tail l1 s1).rest, (location_loop loc h tail l1 s1).hstate⟩,
        (location_loop loc h tail l1 s1).lstate⟩ := by
  induction es generalizing l s with
  | nil =>
    simp only [List.foldlM_nil, pure, Except.pure, Except.ok.injEq] at hdisp hloc
    subst hdisp
    subst hloc
    simp
  | cons e es ih =>
    obtain ⟨s0, h0, hrest⟩ := foldlM_cons_ok _ _ _ _ _ hdisp
    obtain ⟨l0, hl0, hlrest⟩ := foldlM_cons_ok _ _ _ _ _ hloc
    have hih := ih l0 s0 hlrest hrest
    simp only [List.map_cons, List.cons_append, location_loop, h0, hl0, List.append_eq]
    rw [hih]
    simp [List.flatMap_cons]

theorem filter_onHandler_dispatch (es : List Entity) :
    (es.map Call.dispatch).filter Call.onHandler = es.map Call.dispatch := by
  induction es with
  | nil => rfl
  | cons e es ih => simp [List.filter, Call.onHandler, ih]

theorem filter_onHandler_interleaved (es : List Entity) :
    (es.flatMap (fun e => [Call.resolve e, Call.dispatch e])).filter Call.onHandler =
      es.map Call.dispatch := by
  induction es with
  | nil => rfl
  | cons e es ih =>
    rw [List.flatMap_cons, List.filter_append, ih]
    simp [List.filter, Call.onHandler]

theorem apply_args_plain (args : List Value)
    (hh : JSHandler_HasInstance (arg args 0) = true)
    (hopt : args.length = 1 ∨
      (args.length = 2 ∧ (arg args 1).IsObject = true ∧
        ((arg args 1).Get "with_location_handler" = Value.undefined ∨
          (arg args 1).Get "with_location_handler" = Value.boolean false))) :
    apply_args args = Except.ok false := by
  have hobj : (arg args 0).IsObject = true := by
    cases h0 : arg args 0 <;> simp_all [JSHandler_HasInstance, Value.IsObject]
  have hnull : (arg args 0).IsNull = false := by
    cases h0 : arg args 0 <;> simp_all [JSHandler_HasInstance, Value.IsNull]
  have hundef : (arg args 0).IsUndefined = false := by
    cases h0 : arg args 0 <;> simp_all [JSHandler_HasInstance, Value.IsUndefined]
  unfold apply_args
  rcases hopt with h1 | ⟨h2, ho, hw | hw⟩
  · simp [h1, hobj, hnull, hundef, hh]
  · simp [h2, hobj, hnull, hundef, hh, ho, hw, Value.BooleanValue]
  · simp [h2, hobj, hnull, hundef, hh, ho, hw, Value.BooleanValue]

theorem apply_args_bad (args : List Value)
    (hbad : args.length = 0 ∨ (arg args 0).IsObject = false ∨
      JSHandler_HasInstance (arg args 0) = false) :
    ∃ msg, apply_args args = Except.error msg := by
  unfold apply_args
  by_cases hl : (args.length != 1 && args.length != 2) = true
  · exact ⟨_, by rw [if_pos hl]⟩
  · rw [if_neg hl]
    by_cases ho : (arg args 0).IsObject = true
    · have hinst : JSHandler_HasInstance (arg args 0) = false := by
        rcases hbad with h | h | h
        · simp [h] at hl
        · rw [ho] at h; cases h
        · exact h
      exact ⟨"please provide a valid handler object", by simp [ho, hinst]⟩
    · exact ⟨"please provide a single handler object", by simp [ho]⟩

theorem plain_loop_nil {σ : Type} (h : JSHandler σ) (s : σ) :
    (plain_loop h [] s).calls = [Call.done] ∧ (plain_loop h [] s).rest = [] := by
  unfold plain_loop
  split <;> exact ⟨rfl, rfl⟩

theorem plain_loop_nil_ok {σ : Type} (h : JSHandler σ) (s s2 : σ)
    (hd : h.done s = Except.ok s2) :
    plain_loop h [] s = ⟨none, [Call.done], [], s2⟩ := by
  unfold plain_loop
  rw [hd]

theorem plain_loop_nil_error {σ : Type} (h : JSHandler σ) (s : σ) (ex : CppException)
    (hd : h.done s = Except.error ex) :
    plain_loop h [] s = ⟨some ex, [Call.done], [], s⟩ := by
  unfold plain_loop
  rw [hd]

/-- What `finish` makes of the result of a loop. -/
theorem finish_fields {σ ι : Type} (reader : Reader) (r : LoopResult σ) (ls : Option ι) :
    (finish reader r ls).calls = r.calls ∧
    (finish reader r ls).reader.items = r.rest ∧
    (finish reader r ls).reader.header = reader.header ∧
    (finish reader r ls).hstate = r.hstate ∧
    (finish reader r ls).lstate = ls ∧
    (finish reader r ls).completion =
      (match r.raised with
        | some ex => Completion.uncaught ex
        | none => Completion.returned Value.undefined) := by
  unfold finish
  cases hx : r.raised <;> simp

theorem apply_plain {σ ι : Type} (loc : LocationHandler ι) (h : JSHandler σ)
    (reader : Reader) (args : List Value) (s : σ)
    (hargs : apply_args args = Except.ok false) :
    apply loc h reader args s = finish reader (plain_loop h reader.items s) none := by
  unfold apply
  simp [hargs]

theorem apply_location {σ ι : Type} (loc : LocationHandler ι) (h : JSHandler σ)
    (reader : Reader) (args : List Value) (s : σ)
    (hargs : apply_args args = Except.ok true) :
    apply loc h reader args s =
      finish reader (location_loop loc h reader.items loc.init s).toLoopResult
        (some (location_loop loc h reader.items loc.init s).lstate) := by
  unfold apply
  simp [hargs]

/-- What `apply` returns once its arguments are accepted, in terms of the loop
it runs. -/
theorem apply_of_args {σ ι : Type} (loc : LocationHandler ι) (h : JSHandler σ)
    (reader : Reader) (args : List Value) (s : σ) (wlh : Bool)
    (hargs : apply_args args = Except.ok wlh) (r : LoopResult σ)
    (hr : r = if wlh then (location_loop loc h reader.items loc.init s).toLoopResult
      else plain_loop h reader.items s) :
    (apply loc h reader args s).calls = r.calls ∧
    (apply loc h reader args s).reader.items = r.rest ∧
    (apply loc h reader args s).reader.header = reader.header ∧
    (apply loc h reader args s).hstate = r.hstate ∧
    (apply loc h reader args s).completion =
      (match r.raised with
        | some ex => Completion.uncaught ex
        | none => Completion.returned Value.undefined) := by
  cases wlh with
  | false =>
    rw [apply_plain loc h reader args s hargs]
    simp only [Bool.false_eq_true, if_false] at hr
    subst hr
    obtain ⟨f1, f2, f3, f4, -, f6⟩ :=
      finish_fields reader (plain_loop h reader.items s) (none : Option ι)
    exact ⟨f1, f2, f3, f4, f6⟩
  | true =>
    rw [apply_location loc h reader args s hargs]
    simp only [if_true] at hr
    subst hr
    obtain ⟨f1, f2, f3, f4, -, f6⟩ :=
      finish_fields reader (location_loop loc h reader.items loc.init s).toLoopResult
        (some (location_loop loc h reader.items loc.init s).lstate)
    exact ⟨f1, f2, f3, f4, f6⟩

/-- C4: when the first argument of `apply` is missing, is no object or is no
instance of `JSHandler`, the call raises a `TypeError` before it reads
anything: no call is made on the handler or the location handler, the reader
keeps its whole stream and the state of the handler is untouched. -/
theorem apply_rejects_bad_handler {σ ι : Type} (loc : LocationHandler ι) (h : JSHandler σ)
    (reader : Reader) (args : List Value) (s : σ)
    (hbad : args.length = 0 ∨ (arg args 0).IsObject = false ∨
      JSHandler_HasInstance (arg args 0) = false) :
    (∃ msg, (apply loc h reader args s).completion =
        Completion.thrown ErrorClass.TypeError msg) ∧
      (apply loc h reader args s).calls = [] ∧
      (apply loc h reader args s).reader = reader ∧
      (apply loc h reader args s).hstate = s := by
  obtain ⟨msg, hmsg⟩ := apply_args_bad args hbad
  unfold apply
  rw [hmsg]
  exact ⟨⟨msg, rfl⟩, rfl, rfl, rfl⟩

/-- C4 at `reader.apply()`, at `reader.apply(42)` and at `reader.apply(\x7b\x7d)`. -/
theorem apply_rejects_bad_handler_witness :
    (apply sampleLocationHandler countingHandler sampleReader [] 0).calls = [] ∧
    (apply sampleLocationHandler countingHandler sampleReader
      [Value.number ⟨42⟩] 0).reader = sampleReader ∧
    (∃ msg, (apply sampleLocationHandler countingHandler sampleReader
      [Value.object Native.plain []] 0).completion =
        Completion.thrown ErrorClass.TypeError msg) :=
  ⟨(apply_rejects_bad_handler sampleLocationHandler countingHandler sampleReader [] 0
      (Or.inl rfl)).2.1,
    (apply_rejects_bad_handler sampleLocationHandler countingHandler sampleReader
      [Value.number ⟨42⟩] 0 (Or.inr (Or.inl rfl))).2.2.1,
    (apply_rejects_bad_handler sampleLocationHandler countingHandler sampleReader
      [Value.object Native.plain []] 0 (Or.inr (Or.inr rfl))).1⟩

/-- C5 as stated fails at `reader.apply(handler,
\x7bwith_location_handler: false\x7d)` over a stream that decodes without error
to a node and a way, with a handler whose dispatch raises on ways: the calls
made are the two dispatches, and `done` is not called. -/
theorem apply_plain_mode_raising_dispatch :
    sampleReader.items = [node1, way7].map Except.ok ∧
    (apply sampleLocationHandler wayRejectingHandler sampleReader
      [handlerObject,
        Value.object Native.plain [("with_location_handler", Value.boolean false)]] 0).calls =
      [Call.dispatch node1, Call.dispatch way7] ∧
    (apply sampleLocationHandler wayRejectingHandler sampleReader
      [handlerObject,
        Value.object Native.plain [("with_location_handler", Value.boolean false)]] 0).calls ≠
      [node1, way7].map Call.dispatch ++ [Call.done] := by
  have hargs : apply_args [handlerObject,
      Value.object Native.plain [("with_location_handler", Value.boolean false)]] =
      Except.ok false :=
    apply_args_plain _ rfl (Or.inr ⟨rfl, rfl, Or.inr (by simp [arg, Value.Get, List.lookup])⟩)
  have hc : (apply sampleLocationHandler wayRejectingHandler sampleReader
      [handlerObject,
        Value.object Native.plain [("with_location_handler", Value.boolean false)]] 0).calls =
      [Call.dispatch node1, Call.dispatch way7] := by
    rw [apply_plain _ _ _ _ _ hargs]
    rfl
  refine ⟨rfl, hc, ?_⟩
  rw [hc]
  simp

/-- C5, amended: in plain mode (a valid handler, and no options or an options
object whose `with_location_handler` is absent or `false`), over a stream that
decodes to the entities `es` and with a handler whose dispatch returns on each
of them, the calls made are exactly one dispatch for each entity, in stream
order, followed by one `done`; the whole stream is consumed, no location
handler is built, the handler has gone through every dispatch and through
`done`, and the call completes as `done` does. -/
theorem apply_plain_mode_calls {σ ι : Type} (loc : LocationHandler ι) (h : JSHandler σ)
    (reader : Reader) (args : List Value) (s s1 : σ) (es : List Entity)
    (hh : JSHandler_HasInstance (arg args 0) = true)
    (hopt : args.length = 1 ∨
      (args.length = 2 ∧ (arg args 1).IsObject = true ∧
        ((arg args 1).Get "with_location_handler" = Value.undefined ∨
          (arg args 1).Get "with_location_handler" = Value.boolean false)))
    (hstream : reader.items = es.map Except.ok)
    (hdisp : es.foldlM h.dispatch_object s = Except.ok s1) :
    (apply loc h reader args s).calls = es.map Call.dispatch ++ [Call.done] ∧
      (apply loc h reader args s).reader.items = [] ∧
      (apply loc h reader args s).lstate = none ∧
      (∀ s2, h.done s1 = Except.ok s2 →
        (apply loc h reader args s).completion = Completion.returned Value.undefined ∧
        (apply loc h reader args s).hstate = s2) ∧
      (∀ ex, h.done s1 = Except.error ex →
        (apply loc h reader args s).completion = Completion.uncaught ex ∧
        (apply loc h reader args s).hstate = s1) := by
  have hp := plain_loop_append h es [] s s1 hdisp
  rw [List.append_nil] at hp
  rw [apply_plain loc h reader args s (apply_args_plain args hh hopt), hstream, hp]
  obtain ⟨f1, f2, -, f4, f5, f6⟩ := finish_fields reader
    (⟨(plain_loop h [] s1).raised, es.map Call.dispatch ++ (plain_loop h [] s1).calls,
      (plain_loop h [] s1).rest, (plain_loop h [] s1).hstate⟩ : LoopResult σ)
    (none : Option ι)
  rw [f1, f2, f4, f5, f6]
  refine ⟨by rw [(plain_loop_nil h s1).1], (plain_loop_nil h s1).2, rfl, ?_, ?_⟩
  · intro s2 hd
    rw [plain_loop_nil_ok h s1 s2 hd]
    exact ⟨rfl, rfl⟩
  · intro ex hd
    rw [plain_loop_nil_error h s1 ex hd]
    exact ⟨rfl, rfl⟩

/-- C5, amended, at `reader.apply(handler)` and at
`reader.apply(handler, \x7bwith_location_handler: false\x7d)` over a stream of a
node and a way, with a handler that counts its calls. -/
theorem apply_plain_mode_calls_witness :
    ((apply sampleLocationHandler countingHandler sampleReader [handlerObject] 0).calls =
        [Call.dispatch node1, Call.dispatch way7, Call.done] ∧
      (apply sampleLocationHandler countingHandler sampleReader [handlerObject] 0).hstate =
        3) ∧
    (apply sampleLocationHandler countingHandler sampleReader
      [handlerObject,
        Value.object Native.plain [("with_location_handler", Value.boolean false)]] 0).calls =
      [Call.dispatch node1, Call.dispatch way7, Call.done] :=
  have a := apply_plain_mode_calls sampleLocationHandler countingHandler sampleReader
    [handlerObject] 0 2 [node1, way7] rfl (Or.inl rfl) rfl rfl
  have b := apply_plain_mode_calls sampleLocationHandler countingHandler sampleReader
    [handlerObject, Value.object Native.plain [("with_location_handler", Value.boolean false)]]
    0 2 [node1, way7] rfl
    (Or.inr ⟨rfl, rfl, Or.inr (by simp [arg, Value.Get, List.lookup])⟩) rfl rfl
  ⟨⟨a.1, (a.2.2.2.1 3 rfl).2⟩, b.1⟩

/-- C10 as stated fails when it is a dispatch that raises: over a stream of a
node and a way, with a handler that raises on ways, the first entity is
dispatched, the dispatch of the second raises, and the calls made on the
handler are both dispatches, not the first alone. -/
theorem apply_failing_dispatch_is_a_call :
    (apply sampleLocationHandler wayRejectingHandler sampleReader [handlerObject]
        0).completion = Completion.uncaught wayRejected ∧
    wayRejectingHandler.dispatch_object 0 node1 = Except.ok 1 ∧
    wayRejectingHandler.dispatch_object 1 way7 = Except.error wayRejected ∧
    (apply sampleLocationHandler wayRejectingHandler sampleReader [handlerObject]
        0).calls.filter Call.onHandler = [Call.dispatch node1, Call.dispatch way7] ∧
    (apply sampleLocationHandler wayRejectingHandler sampleReader [handlerObject]
        0).calls.filter Call.onHandler ≠ [node1].map Call.dispatch := by
  refine ⟨rfl, rfl, rfl, rfl, ?_⟩
  have hc : (apply sampleLocationHandler wayRejectingHandler sampleReader [handlerObject]
      0).calls.filter Call.onHandler = [Call.dispatch node1, Call.dispatch way7] := rfl
  rw [hc]
  simp

/-- C10, amended: in an `apply` pass whose first entities `es` decode and are
resolved and dispatched without error, (1) when decoding raises at the next
position, the pass ends with that exception, unchanged, and the calls made on
the handler are exactly the dispatches of `es`; (2) when the dispatch of the
next entity raises, the pass ends with that exception and the calls made on
the handler are the dispatches of `es` followed by the dispatch that raised;
(3) when, in location-resolving mode, the location handler raises on the next
entity, the pass ends with that exception and the calls made on the handler are
exactly the dispatches of `es`.  In all three no later entity is dispatched and
`done` is not called. -/
theorem apply_error_propagates {σ ι : Type} (loc : LocationHandler ι) (h : JSHandler σ)
    (reader : Reader) (args : List Value) (s s1 : σ) (l1 : ι) (wlh : Bool)
    (es : List Entity) (ex : CppException)
    (hargs : apply_args args = Except.ok wlh)
    (hdisp : es.foldlM h.dispatch_object s = Except.ok s1)
    (hloc : wlh = true → es.foldlM loc.apply_item loc.init = Except.ok l1) :
    (∀ rest, reader.items = es.map Except.ok ++ Except.error ex :: rest →
      (apply loc h reader args s).completion = Completion.uncaught ex ∧
      (apply loc h reader args s).calls.filter Call.onHandler = es.map Call.dispatch ∧
      Call.done ∉ (apply loc h reader args s).calls.filter Call.onHandler ∧
      (apply loc h reader args s).reader.items = rest) ∧
    (∀ e rest, reader.items = es.map Except.ok ++ Except.ok e :: rest →
      (wlh = true → ∃ l2, loc.apply_item l1 e = Except.ok l2) →
      h.dispatch_object s1 e = Except.error ex →
      (apply loc h reader args s).completion = Completion.uncaught ex ∧
      (apply loc h reader args s).calls.filter Call.onHandler =
        es.map Call.dispatch ++ [Call.dispatch e] ∧
      Call.done ∉ (apply loc h reader args s).calls.filter Call.onHandler ∧
      (apply loc h reader args s).reader.items = rest) ∧
    (∀ e rest, reader.items = es.map Except.ok ++ Except.ok e :: rest →
      wlh = true → loc.apply_item l1 e = Except.error ex →
      (apply loc h reader args s).completion = Completion.uncaught ex ∧
      (apply loc h reader args s).calls.filter Call.onHandler = es.map Call.dispatch ∧
      Call.done ∉ (apply loc h reader args s).calls.filter Call.onHandler ∧
      (apply loc h reader args s).reader.items = rest) := by
  obtain ⟨ac, ar, -, -, ak⟩ := apply_of_args loc h reader args s wlh hargs _ rfl
  rw [ac, ar, ak]
  cases wlh with
  | false =>
    simp only [Bool.false_eq_true, if_false]
    refine ⟨?_, ?_, ?_⟩
    · intro rest hitems
      rw [hitems, plain_loop_append h es _ s s1 hdisp]
      simp [plain_loop, List.filter_append, filter_onHandler_dispatch]
    · intro e rest hitems _ hfail
      rw [hitems, plain_loop_append h es _ s s1 hdisp]
      simp [plain_loop, hfail, List.filter_append, filter_onHandler_dispatch, Call.onHandler]
    · intro e rest _ hne
      cases hne
  | true =>
    have hl := hloc rfl
    simp only [if_true]
    refine ⟨?_, ?_, ?_⟩
    · intro rest hitems
      rw [hitems, location_loop_append loc h es _ loc.init l1 s s1 hl hdisp]
      simp [location_loop, List.filter_append, filter_onHandler_interleaved]
    · intro e rest hitems hres hfail
      obtain ⟨l2, hl2⟩ := hres trivial
      rw [hitems, location_loop_append loc h es _ loc.init l1 s s1 hl hdisp]
      simp [location_loop, hl2, hfail, List.filter_append, filter_onHandler_interleaved,
        Call.onHandler]
    · intro e rest hitems _ hfail
      rw [hitems, location_loop_append loc h es _ loc.init l1 s s1 hl hdisp]
      simp [location_loop, hfail, List.filter_append, filter_onHandler_interleaved,
        Call.onHandler]

/-- C10, amended, at a stream whose second item fails to decode, and at a
stream of a node and a way with a handler that raises on ways. -/
theorem apply_error_propagates_witness :
    ((apply sampleLocationHandler countingHandler brokenReader [handlerObject]
        0).completion = Completion.uncaught decodeFailed ∧
      (apply sampleLocationHandler countingHandler brokenReader [handlerObject]
        0).calls.filter Call.onHandler = [Call.dispatch node1]) ∧
    ((apply sampleLocationHandler wayRejectingHandler sampleReader [handlerObject]
        0).completion = Completion.uncaught wayRejected ∧
      (apply sampleLocationHandler wayRejectingHandler sampleReader [handlerObject]
        0).calls.filter Call.onHandler = [Call.dispatch node1, Call.dispatch way7]) :=
  have a := (apply_error_propagates sampleLocationHandler countingHandler brokenReader
    [handlerObject] 0 1 [] false [node1] decodeFailed rfl rfl (fun x => by cases x)).1
      [Except.ok way7] rfl
  have b := (apply_error_propagates sampleLocationHandler wayRejectingHandler sampleReader
    [handlerObject] 0 1 [] false [node1] wayRejected rfl rfl (fun x => by cases x)).2.1
      way7 [] rfl (fun x => by cases x) rfl
  ⟨⟨a.1, a.2.1⟩, ⟨b.1, b.2.1⟩⟩

end node_osmium

/-! ## Theorems about `ReaderWrap::header` -/

namespace node_osmium

end node_osmium

/-! ## Theorems about the benchmark -/

namespace benchmark

end benchmark
